import Mathlib

/-!
Verification development for the craft-api-utilities repository.

We shallowly embed the Python/pydantic data model (`src/modules/models.py`),
the batch helper (`src/modules/helper_functions.py`) and the API client
(`src/modules/api_client.py`) as executable Lean definitions, and prove the
specification's claims about them.

JSON values are modelled by `Craft.JVal`; Python `int` maps to `Int`,
Python `float` to `Rat` (no floating-point rounding is exercised by any
claim), JSON objects to association lists with unique keys (Python dicts).
Pydantic v2 validation is modelled field by field: lookup is by alias,
a missing key takes the declared default or default factory, `mode="before"`
validators run on the raw value, and lax coercions are modelled where the
models can exercise them.
-/

set_option autoImplicit false

namespace Craft

/-- JSON-ish Python values flowing through pydantic validation.
`jundef` models the `PydanticUndefined` sentinel object, which the
`replace_none_with_defaults` validator writes into the data dict for a
field declared with a `default_factory` (for such a field
`field_info.default` *is* `PydanticUndefined`, and the code's guard
`is not PydanticUndefinedAnnotation` is always true). -/
inductive JVal where
  | jnull
  | jbool (b : Bool)
  | jint (n : Int)
  | jfloat (q : Rat)
  | jstr (s : String)
  | jarr (xs : List JVal)
  | jobj (kvs : List (String × JVal))
  | jundef

/-- Python `data[k]` lookup on a dict modelled as an association list. -/
def lookupKey (kvs : List (String × JVal)) (k : String) : Option JVal :=
  match kvs with
  | [] => none
  | (k', v) :: rest => if k' = k then some v else lookupKey rest k

/-- Python `data[k] = v` on a key that is already present: replace in place. -/
def setKey (kvs : List (String × JVal)) (k : String) (v : JVal) :
    List (String × JVal) :=
  match kvs with
  | [] => []
  | (k', v') :: rest =>
      if k' = k then (k', v) :: rest else (k', v') :: setKey rest k v

/-- What `field_info.default` of a pydantic field looks like to
`replace_none_with_defaults`: a plain default value, or the
`PydanticUndefined` sentinel when the field was declared with a
`default_factory`. -/
inductive PyDefault where
  | value (v : JVal)
  | factory

/-- One iteration of the loop in `BaseModelReplaceNone.replace_none_with_defaults`:
`if field_name in data and data[field_name] is None: data[field_name] = field_info.default`.
Note the loop is keyed by *field name* while incoming payloads are keyed by
*alias*; this mismatch is part of the source and is preserved here. -/
def replaceNoneStep (kvs : List (String × JVal)) (spec : String × PyDefault) :
    List (String × JVal) :=
  match lookupKey kvs spec.1 with
  | some .jnull =>
      match spec.2 with
      | .value v => setKey kvs spec.1 v
      | .factory => setKey kvs spec.1 .jundef
  | _ => kvs

/-- `BaseModelReplaceNone.replace_none_with_defaults` (models.py lines 75-90):
non-dict data is returned unchanged; otherwise every field whose *name* is a
key of the dict holding `None` is overwritten with `field_info.default`. -/
def replace_none_with_defaults (specs : List (String × PyDefault)) (j : JVal) :
    JVal :=
  match j with
  | .jobj kvs => .jobj (specs.foldl replaceNoneStep kvs)
  | v => v

/-! ### Pydantic core validation primitives (lax mode) -/

/-- Validate a value against `str`. -/
def vStr : JVal → Except String String
  | .jstr s => .ok s
  | _ => .error "string_type"

/-- Python `int(str)` semantics on the digit part: ASCII digits with single
underscores allowed between digits (Python 3.6+). -/
def pyDigits : List Char → Option Nat
  | [] => none
  | c :: cs =>
      if c.isDigit then pyDigitsGo (c.toNat - 48) cs else none
where
  pyDigitsGo (acc : Nat) : List Char → Option Nat
    | [] => some acc
    | c :: cs =>
        if c.isDigit then pyDigitsGo (acc * 10 + (c.toNat - 48)) cs
        else
          if c = '_' then
            match cs with
            | c' :: cs' =>
                if c'.isDigit then pyDigitsGo (acc * 10 + (c'.toNat - 48)) cs'
                else none
            | [] => none
          else none

/-- Python `str.strip()` of surrounding whitespace, on the character list. -/
def stripChars (cs : List Char) : List Char :=
  ((cs.dropWhile Char.isWhitespace).reverse.dropWhile Char.isWhitespace).reverse

/-- Python `int(s)` for a string argument: surrounding whitespace stripped,
optional sign, digits (with underscores); `none` models `ValueError`. -/
def pyIntOfString (s : String) : Option Int :=
  match stripChars s.toList with
  | '+' :: cs => (pyDigits cs).map Int.ofNat
  | '-' :: cs => (pyDigits cs).map (fun n => -(n : Int))
  | cs => (pyDigits cs).map Int.ofNat

/-- Validate a value against `int` (lax: integral floats and numeric strings
are coerced, booleans are rejected). -/
def vInt : JVal → Except String Int
  | .jint n => .ok n
  | .jfloat q => if q.den = 1 then .ok q.num else .error "int_from_float"
  | .jstr s =>
      match pyIntOfString s with
      | some n => .ok n
      | none => .error "int_parsing"
  | _ => .error "int_type"

/-- Validate a value against `float` (lax: ints accepted). -/
def vFloat : JVal → Except String Rat
  | .jint n => .ok (n : Rat)
  | .jfloat q => .ok q
  | _ => .error "float_type"

/-- Validate `T | None`: JSON null is `None`, otherwise validate as `T`. -/
def vOpt {α : Type} (f : JVal → Except String α) : JVal → Except String (Option α)
  | .jnull => .ok none
  | v => (f v).map some

/-- Validate `list[T]`. -/
def vListOf {α : Type} (f : JVal → Except String α) : JVal → Except String (List α)
  | .jarr xs => xs.mapM f
  | _ => .error "list_type"

/-- Pydantic's per-field step: fetch the alias key from the (transformed)
data dict; a missing key takes the declared default, a present value is
validated. -/
def fieldOr {α : Type} (kvs : List (String × JVal)) (aliasKey : String)
    (onMissing : Except String α) (f : JVal → Except String α) :
    Except String α :=
  match lookupKey kvs aliasKey with
  | none => onMissing
  | some v => f v

/-! ### The record models of `src/modules/models.py` -/

/-- Internal value of an `int | str` identifier field. -/
inductive IdVal where
  | int (n : Int)
  | str (s : String)
deriving DecidableEq

/-- `CraftCompany.convert_id_to_int` (models.py lines 229-240), a
`mode="before"` field validator: `None` passes through, a string is coerced
with Python `int(...)` and kept as the original string when that raises,
anything else passes through unchanged.  Total: it never raises. -/
def convert_id_to_int (v : JVal) : JVal :=
  match v with
  | .jnull => .jnull
  | .jstr s =>
      match pyIntOfString s with
      | some n => .jint n
      | none => .jstr s
  | w => w

/-- Validate a value against the union `int | str | None` (pydantic smart
union: exact type matches win, an integral float falls to the int arm). -/
def vIdUnion : JVal → Except String (Option IdVal)
  | .jnull => .ok none
  | .jint n => .ok (some (.int n))
  | .jstr s => .ok (some (.str s))
  | .jfloat q => if q.den = 1 then .ok (some (.int q.num)) else .error "union_type"
  | _ => .error "union_type"

/-- `CurrentCreditRating` (models.py lines 94-100). -/
structure CurrentCreditRating where
  common_value : Option String
  common_description : Option String
deriving DecidableEq

/-- `field_info` view of `CurrentCreditRating` for the replace-none loop. -/
def currentCreditRatingSpecs : List (String × PyDefault) :=
  [("common_value", .value (.jstr "Not available")),
   ("common_description", .value (.jstr "Not available"))]

/-- `CurrentCreditRating()` with no arguments: all defaults. -/
def defaultCurrentCreditRating : CurrentCreditRating :=
  { common_value := some "Not available",
    common_description := some "Not available" }

/-- Pydantic validation of `CurrentCreditRating`. -/
def validateCurrentCreditRating (j : JVal) : Except String CurrentCreditRating :=
  match replace_none_with_defaults currentCreditRatingSpecs j with
  | .jobj kvs => do
      let cv ← fieldOr kvs "commonValue" (.ok (some "Not available")) (vOpt vStr)
      let cd ← fieldOr kvs "commonDescription" (.ok (some "Not available")) (vOpt vStr)
      .ok { common_value := cv, common_description := cd }
  | _ => .error "model_type"

/-- `CreditScore` (models.py lines 103-108). -/
structure CreditScore where
  current_credit_rating : Option CurrentCreditRating
deriving DecidableEq

def creditScoreSpecs : List (String × PyDefault) :=
  [("current_credit_rating", .factory)]

/-- `CreditScore()` with no arguments: the factory builds a fully defaulted
`CurrentCreditRating`. -/
def defaultCreditScore : CreditScore :=
  { current_credit_rating := some defaultCurrentCreditRating }

/-- Pydantic validation of `CreditScore`. -/
def validateCreditScore (j : JVal) : Except String CreditScore :=
  match replace_none_with_defaults creditScoreSpecs j with
  | .jobj kvs => do
      let r ← fieldOr kvs "currentCreditRating"
        (.ok (some defaultCurrentCreditRating)) (vOpt validateCurrentCreditRating)
      .ok { current_credit_rating := r }
  | _ => .error "model_type"

/-- `ComplianceData` (models.py lines 112-169): the stored fields.  The
eight compliance flags are `@computed_field` properties, embedded below as
functions of the record. -/
structure ComplianceData where
  request_status : Option String
  datasets : List String
deriving DecidableEq

def complianceDataSpecs : List (String × PyDefault) :=
  [("request_status", .value (.jstr "NOT_REQUESTED")), ("datasets", .factory)]

/-- `ComplianceData()` with no arguments. -/
def defaultComplianceData : ComplianceData :=
  { request_status := some "NOT_REQUESTED", datasets := [] }

/-- Pydantic validation of `ComplianceData`. -/
def validateComplianceData (j : JVal) : Except String ComplianceData :=
  match replace_none_with_defaults complianceDataSpecs j with
  | .jobj kvs => do
      let rs ← fieldOr kvs "requestStatus" (.ok (some "NOT_REQUESTED")) (vOpt vStr)
      let ds ← fieldOr kvs "datasets" (.ok []) (vListOf vStr)
      .ok { request_status := rs, datasets := ds }
  | _ => .error "model_type"

/-- Computed property `compliance_flag_adverse_media`: `"RRE" in self.datasets`. -/
def compliance_flag_adverse_media (c : ComplianceData) : Bool :=
  c.datasets.contains "RRE"

/-- Computed property `compliance_flag_enforcements`: `"REL" in self.datasets`. -/
def compliance_flag_enforcements (c : ComplianceData) : Bool :=
  c.datasets.contains "REL"

/-- Computed property `compliance_flag_state_owned`: `"SOE" in self.datasets`. -/
def compliance_flag_state_owned (c : ComplianceData) : Bool :=
  c.datasets.contains "SOE"

/-- Computed property `compliance_flag_persons_of_interest`: `"POI" in self.datasets`. -/
def compliance_flag_persons_of_interest (c : ComplianceData) : Bool :=
  c.datasets.contains "POI"

/-- Computed property `compliance_flag_current_sanctions`: `"SAN-CURRENT" in self.datasets`. -/
def compliance_flag_current_sanctions (c : ComplianceData) : Bool :=
  c.datasets.contains "SAN-CURRENT"

/-- Computed property `compliance_flag_former_sanctions`: `"SAN-FORMER" in self.datasets`. -/
def compliance_flag_former_sanctions (c : ComplianceData) : Bool :=
  c.datasets.contains "SAN-FORMER"

/-- Computed property `compliance_flag_current_peps`: `"PEP-CURRENT" in self.datasets`. -/
def compliance_flag_current_peps (c : ComplianceData) : Bool :=
  c.datasets.contains "PEP-CURRENT"

/-- Computed property `compliance_flag_former_peps`: `"PEP-FORMER" in self.datasets`. -/
def compliance_flag_former_peps (c : ComplianceData) : Bool :=
  c.datasets.contains "PEP-FORMER"

/-- `SecurityRating` (models.py lines 172-175). -/
structure SecurityRating where
  score : Option Int
  grade : Option String
  datetime : Option String
deriving DecidableEq

def securityRatingSpecs : List (String × PyDefault) :=
  [("score", .value (.jint 0)), ("grade", .value (.jstr "Not Available")),
   ("datetime", .value (.jstr "Not Available"))]

/-- `SecurityRating()` with no arguments. -/
def defaultSecurityRating : SecurityRating :=
  { score := some 0, grade := some "Not Available",
    datetime := some "Not Available" }

/-- Pydantic validation of `SecurityRating`. -/
def validateSecurityRating (j : JVal) : Except String SecurityRating :=
  match replace_none_with_defaults securityRatingSpecs j with
  | .jobj kvs => do
      let sc ← fieldOr kvs "score" (.ok (some 0)) (vOpt vInt)
      let g ← fieldOr kvs "grade" (.ok (some "Not Available")) (vOpt vStr)
      let dt ← fieldOr kvs "datetime" (.ok (some "Not Available")) (vOpt vStr)
      .ok { score := sc, grade := g, datetime := dt }
  | _ => .error "model_type"

/-- `SustainabilityRating` (models.py lines 178-183). -/
structure SustainabilityRating where
  overall : Option Rat
  employee : Option Rat
  environment : Option Rat
  governance : Option Rat
  last_updated_date : Option String
deriving DecidableEq

def sustainabilityRatingSpecs : List (String × PyDefault) :=
  [("overall", .value (.jint 0)), ("employee", .value (.jint 0)),
   ("environment", .value (.jint 0)), ("governance", .value (.jint 0)),
   ("last_updated_date", .value (.jstr "Unknown"))]

/-- `SustainabilityRating()` with no arguments. -/
def defaultSustainabilityRating : SustainabilityRating :=
  { overall := some 0, employee := some 0, environment := some 0,
    governance := some 0, last_updated_date := some "Unknown" }

/-- Pydantic validation of `SustainabilityRating`. -/
def validateSustainabilityRating (j : JVal) : Except String SustainabilityRating :=
  match replace_none_with_defaults sustainabilityRatingSpecs j with
  | .jobj kvs => do
      let ov ← fieldOr kvs "overall" (.ok (some 0)) (vOpt vFloat)
      let em ← fieldOr kvs "employee" (.ok (some 0)) (vOpt vFloat)
      let en ← fieldOr kvs "environment" (.ok (some 0)) (vOpt vFloat)
      let go ← fieldOr kvs "governance" (.ok (some 0)) (vOpt vFloat)
      let lu ← fieldOr kvs "lastUpdatedDate" (.ok (some "Unknown")) (vOpt vStr)
      .ok { overall := ov, employee := em, environment := en,
            governance := go, last_updated_date := lu }
  | _ => .error "model_type"

/-- `Period` (models.py lines 186-188). -/
structure Period where
  period_type : Option String
  period_end_date : Option String
deriving DecidableEq

def periodSpecs : List (String × PyDefault) :=
  [("period_type", .value (.jstr "Unknown")),
   ("period_end_date", .value (.jstr "Unknown"))]

/-- `Period()` with no arguments. -/
def defaultPeriod : Period :=
  { period_type := some "Unknown", period_end_date := some "Unknown" }

/-- Pydantic validation of `Period`. -/
def validatePeriod (j : JVal) : Except String Period :=
  match replace_none_with_defaults periodSpecs j with
  | .jobj kvs => do
      let pt ← fieldOr kvs "periodType" (.ok (some "Unknown")) (vOpt vStr)
      let pe ← fieldOr kvs "endDate" (.ok (some "Unknown")) (vOpt vStr)
      .ok { period_type := pt, period_end_date := pe }
  | _ => .error "model_type"

/-- `Ratios` (models.py lines 191-196). -/
structure Ratios where
  period : Option Period
  debt_to_assets_ratio : Option Rat
  debt_to_equity_ratio : Option Rat
  quick_ratio : Option Rat
  current_ratio : Option Rat
deriving DecidableEq

def ratiosSpecs : List (String × PyDefault) :=
  [("period", .factory), ("debt_to_assets_ratio", .value (.jint 0)),
   ("debt_to_equity_ratio", .value (.jint 0)),
   ("quick_ratio", .value (.jint 0)), ("current_ratio", .value (.jint 0))]

/-- `Ratios()` with no arguments. -/
def defaultRatios : Ratios :=
  { period := some defaultPeriod, debt_to_assets_ratio := some 0,
    debt_to_equity_ratio := some 0, quick_ratio := some 0,
    current_ratio := some 0 }

/-- Pydantic validation of `Ratios`. -/
def validateRatios (j : JVal) : Except String Ratios :=
  match replace_none_with_defaults ratiosSpecs j with
  | .jobj kvs => do
      let pe ← fieldOr kvs "period" (.ok (some defaultPeriod)) (vOpt validatePeriod)
      let da ← fieldOr kvs "debtToAssetsRatio" (.ok (some 0)) (vOpt vFloat)
      let de ← fieldOr kvs "debtToEquityRatio" (.ok (some 0)) (vOpt vFloat)
      let qr ← fieldOr kvs "quickRatio" (.ok (some 0)) (vOpt vFloat)
      let cr ← fieldOr kvs "currentRatio" (.ok (some 0)) (vOpt vFloat)
      .ok { period := pe, debt_to_assets_ratio := da,
            debt_to_equity_ratio := de, quick_ratio := qr, current_ratio := cr }
  | _ => .error "model_type"

/-- `CraftCompany.handle_ratios_array` (models.py lines 242-259), a
`mode="before"` field validator: `None` becomes `[]`; a list passes through
element-wise unchanged (the source appends `item` in both branches of its
loop); anything else passes through. -/
def handle_ratios_array (v : JVal) : JVal :=
  match v with
  | .jnull => .jarr []
  | .jarr xs => .jarr xs
  | w => w

/-- `CraftCompany` (models.py lines 199-259). -/
structure CraftCompany where
  id : Option IdVal
  duns : Option IdVal
  display_name : String
  country_of_registration : String
  homepage : Option String
  short_description : Option String
  company_type : String
  credit_score : Option CreditScore
  compliance_data : Option ComplianceData
  security_ratings : Option (List SecurityRating)
  sustainability_rating : Option SustainabilityRating
  financial_ratios : Option (List Ratios)
deriving DecidableEq

/-- `field_info` view of `CraftCompany`, in declaration order.  Note that
`default=None` (for `id`, `duns`, `sustainability_rating`) is a plain value
default of `None`, while `default_factory` fields show `PydanticUndefined`. -/
def craftCompanySpecs : List (String × PyDefault) :=
  [("id", .value .jnull), ("duns", .value .jnull),
   ("display_name", .value (.jstr "None Found")),
   ("country_of_registration", .value (.jstr "None Found")),
   ("homepage", .value (.jstr "None Found")),
   ("short_description", .value (.jstr "None found")),
   ("company_type", .value (.jstr "None Found")),
   ("credit_score", .factory), ("compliance_data", .factory),
   ("security_ratings", .factory), ("sustainability_rating", .value .jnull),
   ("financial_ratios", .factory)]

/-- The record decoded from an empty company object: every field takes its
declared default. -/
def defaultCraftCompany : CraftCompany :=
  { id := none, duns := none, display_name := "None Found",
    country_of_registration := "None Found", homepage := some "None Found",
    short_description := some "None found", company_type := "None Found",
    credit_score := some defaultCreditScore,
    compliance_data := some defaultComplianceData,
    security_ratings := some [defaultSecurityRating],
    sustainability_rating := none, financial_ratios := some [] }

/-- Pydantic validation of `CraftCompany`: the replace-none model validator,
then per-field alias lookup, with the `mode="before"` field validators
`convert_id_to_int` (on `id`) and `handle_ratios_array` (on
`financial_ratios`) applied to present values. -/
def validateCraftCompany (j : JVal) : Except String CraftCompany :=
  match replace_none_with_defaults craftCompanySpecs j with
  | .jobj kvs => do
      let i ← fieldOr kvs "id" (.ok none) (fun v => vIdUnion (convert_id_to_int v))
      let du ← fieldOr kvs "duns" (.ok none) vIdUnion
      let dn ← fieldOr kvs "displayName" (.ok "None Found") vStr
      let co ← fieldOr kvs "countryOfRegistration" (.ok "None Found") vStr
      let hp ← fieldOr kvs "homepage" (.ok (some "None Found")) (vOpt vStr)
      let sd ← fieldOr kvs "shortDescription" (.ok (some "None found")) (vOpt vStr)
      let ct ← fieldOr kvs "companyType" (.ok "None Found") vStr
      let cs ← fieldOr kvs "creditScore" (.ok (some defaultCreditScore))
        (vOpt validateCreditScore)
      let cd ← fieldOr kvs "complianceData" (.ok (some defaultComplianceData))
        (vOpt validateComplianceData)
      let sr ← fieldOr kvs "securityRatings" (.ok (some [defaultSecurityRating]))
        (vOpt (vListOf validateSecurityRating))
      let su ← fieldOr kvs "sustainabilityRating" (.ok none)
        (vOpt validateSustainabilityRating)
      let fr ← fieldOr kvs "ratios" (.ok (some []))
        (fun v => vOpt (vListOf validateRatios) (handle_ratios_array v))
      .ok { id := i, duns := du, display_name := dn,
            country_of_registration := co, homepage := hp,
            short_description := sd, company_type := ct, credit_score := cs,
            compliance_data := cd, security_ratings := sr,
            sustainability_rating := su, financial_ratios := fr }
  | _ => .error "model_type"

/-- `CompanyData` (models.py lines 326-329): a plain `BaseModel` (no
replace-none hook); its single field `company` has an alias and **no
default**, so a missing `company` key is a validation error. -/
structure CompanyData where
  company : Option CraftCompany
deriving DecidableEq

/-- Pydantic validation of `CompanyData`. -/
def validateCompanyData (j : JVal) : Except String CompanyData :=
  match j with
  | .jobj kvs => do
      let c ← fieldOr kvs "company" (.error "missing") (vOpt validateCraftCompany)
      .ok { company := c }
  | _ => .error "model_type"

/-- `ApiResponse` (models.py lines 342-346): plain `BaseModel`, both fields
defaulting to `None`, no aliases. -/
structure ApiResponse where
  data : Option CompanyData
  error : Option String
deriving DecidableEq

/-- Pydantic validation of `ApiResponse`. -/
def validateApiResponse (j : JVal) : Except String ApiResponse :=
  match j with
  | .jobj kvs => do
      let d ← fieldOr kvs "data" (.ok none) (vOpt validateCompanyData)
      let e ← fieldOr kvs "error" (.ok none) (vOpt vStr)
      .ok { data := d, error := e }
  | _ => .error "model_type"

/-! ### `src/modules/helper_functions.py` -/

/-- Python `range(0, stop, step)` for a positive step:
`[0, step, 2*step, ...)` below `stop`, i.e. `ceil(stop/step)` multiples of
`step`.  (`range` with a negative step and `0 <= stop` is empty, handled at
the call site; a zero step raises `ValueError`.) -/
def pyRange (stop step : Nat) : List Nat :=
  (List.range ((stop + step - 1) / step)).map (fun i => i * step)

/-- Python slice `items[i : i + size]`. -/
def pySlice {α : Type} (items : List α) (i size : Nat) : List α :=
  (items.drop i).take size

/-- The batch partition built by `async_batch_processor` (line 45):
`[items[i : i + batch_size] for i in range(0, len(items), batch_size)]`. -/
def makeBatches {α : Type} (items : List α) (batchSize : Nat) : List (List α) :=
  (pyRange items.length batchSize).map (fun i => pySlice items i batchSize)

/-- Classification of the dynamic value returned by a `final_processor`:
`None`, a list, or any other single value. -/
inductive ProcOut (β : Type) where
  | none
  | list (xs : List β)
  | single (x : β)

/-- Contribution of one processed batch to the accumulator (lines 59-67):
`None` is skipped, a list extends the accumulator, any other value is
appended. -/
def procOutSplice {β : Type} : ProcOut β → List β
  | .none => []
  | .list xs => xs
  | .single x => [x]

/-- Message of the `ValueError` Python raises for `range(0, n, 0)`. -/
def rangeZeroStepMsg : String := "range() arg 3 must not be zero"

/-- `async_batch_processor` (helper_functions.py lines 22-71).  The per-item
coroutines of one batch are gathered with `asyncio.gather`, which returns
their results in task (input) order regardless of completion order, so one
batch contributes `batch.map func` (when no `final_processor` is given) —
the only effect of concurrency is timing, which the claims quantify away.
`batch_size` is an `Int`: `0` raises `ValueError` inside `range` (modelled
as `.error`), a negative value makes `range(0, len(items), batch_size)`
empty, so no batch is ever formed. -/
def async_batch_processor {α β : Type} (func : α → β) (items : List α)
    (batchSize : Int) (finalProcessor : Option (List β → ProcOut β)) :
    Except String (List β) :=
  if batchSize = 0 then .error rangeZeroStepMsg
  else
    let batches : List (List α) :=
      if batchSize < 0 then [] else makeBatches items batchSize.toNat
    .ok (batches.foldl
      (fun results batch =>
        let batchResults := batch.map func
        match finalProcessor with
        | Option.none => results ++ batchResults
        | Option.some g => results ++ procOutSplice (g batchResults))
      [])

/-! ### `src/modules/api_client.py` -/

/-- `CompanyIdentifier` (models.py lines 18-23). -/
inductive CompanyIdentifier where
  | DUNS
  | CRAFT_ID
  | DOMAIN
deriving DecidableEq

/-- The string value of each `CompanyIdentifier` enum member. -/
def CompanyIdentifier.value : CompanyIdentifier → String
  | .DUNS => "duns"
  | .CRAFT_ID => "id"
  | .DOMAIN => "domain"

/-- `ApiConfig` (models.py lines 26-36), with the environment-derived
api key abstracted as a plain field. -/
structure ApiConfig where
  api_key : String
  base_url : String := "https://api.craft.co/v1"
  company_id_field : CompanyIdentifier := .CRAFT_ID
  headers : List (String × String)
  query_string : String

/-- The JSON request body `fetch_company` posts; `vars` holds the source's
`"variables"` entry (`variables` is a reserved word in Lean). -/
structure RequestPayload where
  query : String
  vars : List (String × Int)
deriving DecidableEq

/-- Line 13 of api_client.py:
`payload = {"query": QUERY, "variables": {"id": company_id}}`.
The variables key is the literal constant `"id"`; no configuration value
enters the function. -/
def buildFetchPayload (QUERY : String) (company_id : Int) : RequestPayload :=
  { query := QUERY, vars := [("id", company_id)] }

/-- The HTTP response of the single `client.post` call: a status code and a
body that either parses as JSON or does not (`Option JVal`; `none` makes
`response.json()` raise `JSONDecodeError`, whose message we carry). -/
structure HttpResponse where
  status : Nat
  jsonBody : Option JVal
  decodeErrMsg : String
  statusErrMsg : String

/-- Outcome of the `client.post(...)` await: a response, or a raised
`httpx.RequestError` (DNS/connection/timeout failure). -/
inductive PostResult where
  | resp (r : HttpResponse)
  | requestError (msg : String)

/-- `httpx.Response.is_success`: a 2xx status.  `raise_for_status` raises
`httpx.HTTPStatusError` for every non-2xx status. -/
def is2xx (status : Nat) : Bool := 200 ≤ status && status < 300

/-- The Python exceptions the `try` block of `fetch_company` can surface,
matching its `except` arms in order. -/
inductive PyException where
  | httpStatusError (status : Nat) (msg : String)
  | requestError (msg : String)
  | keyError (msg : String)
  | otherError (typeName : String) (msg : String)

/-- Result of running the `try` body: a returned value or a raised
exception. -/
inductive TryOutcome where
  | returned (company : Option CraftCompany)
  | raised (e : PyException)

/-- The `try` body of `fetch_company` (api_client.py lines 12-20): post,
`raise_for_status`, `response.json()`, `ApiResponse.model_validate`, then
`api_response.data.company`.  A `None` `data` makes the attribute access
raise `AttributeError`; a validation failure raises pydantic's
`ValidationError`; both are uncategorized (`otherError`). -/
def fetchBody (post : PostResult) : TryOutcome :=
  match post with
  | .requestError msg => .raised (.requestError msg)
  | .resp r =>
      if is2xx r.status then
        match r.jsonBody with
        | Option.none => .raised (.otherError "JSONDecodeError" r.decodeErrMsg)
        | Option.some j =>
            match validateApiResponse j with
            | .error e => .raised (.otherError "ValidationError" e)
            | .ok apiResponse =>
                match apiResponse.data with
                | Option.none =>
                    .raised (.otherError "AttributeError"
                      "NoneType object has no attribute company")
                | Option.some d => .returned d.company
      else
        .raised (.httpStatusError r.status r.statusErrMsg)

/-- Value returned by `fetch_company`: the (possibly `None`) company on
success, or the error dict `{"id": ..., "data": None, "error": ...}` built
by one of the `except` arms. -/
inductive FetchResult where
  | company (c : Option CraftCompany)
  | errorDict (id : Int) (error : String)

/-- The `except` arms of `fetch_company` (api_client.py lines 22-41): every
`Exception` is mapped to an error dict carrying `company_id` and a
kind-tagged message; nothing re-raises. -/
def handleFetchError (company_id : Int) (e : PyException) : FetchResult :=
  match e with
  | .httpStatusError status msg =>
      .errorDict company_id ("HTTP " ++ toString status ++ ": " ++ msg)
  | .requestError msg => .errorDict company_id ("Request error: " ++ msg)
  | .keyError msg => .errorDict company_id ("Missing key in response: " ++ msg)
  | .otherError typeName msg =>
      .errorDict company_id ("Unexpected error: " ++ typeName ++ ": " ++ msg)

/-- `fetch_company` (api_client.py lines 8-41) as a function of the network
outcome: run the try body, dispatch any raised exception to its handler. -/
def fetch_company (company_id : Int) (post : PostResult) : FetchResult :=
  match fetchBody post with
  | .returned c => .company c
  | .raised e => handleFetchError company_id e

/-! ### Helper lemmas -/

@[simp] lemma except_bind_ok {ε α β : Type} (a : α) (f : α → Except ε β) :
    (Except.ok a >>= f : Except ε β) = f a := rfl

@[simp] lemma except_bind_error {ε α β : Type} (e : ε) (f : α → Except ε β) :
    ((Except.error e : Except ε α) >>= f) = Except.error e := rfl

lemma lookupKey_setKey_none (kvs : List (String × JVal)) (k k' : String)
    (v : JVal) (h : lookupKey kvs k = Option.none) :
    lookupKey (setKey kvs k' v) k = Option.none := by
  induction kvs with
  | nil => simpa [setKey] using h
  | cons kv rest ih =>
      obtain ⟨k0, v0⟩ := kv
      simp only [lookupKey] at h
      by_cases h0 : k0 = k
      · simp [h0] at h
      · simp only [h0, if_false] at h
        simp only [setKey]
        by_cases h1 : k0 = k'
        · subst h1
          simp [lookupKey, h0, h]
        · simp only [h1, if_false, lookupKey, h0]
          exact ih h

lemma lookupKey_replaceNoneStep_none (spec : String × PyDefault)
    (kvs : List (String × JVal)) (k : String)
    (h : lookupKey kvs k = Option.none) :
    lookupKey (replaceNoneStep kvs spec) k = Option.none := by
  unfold replaceNoneStep
  cases hv : lookupKey kvs spec.1 with
  | none => exact h
  | some v =>
      cases v <;> try exact h
      cases spec.2 <;> exact lookupKey_setKey_none _ _ _ _ h

lemma lookupKey_rn_fold_none (specs : List (String × PyDefault))
    (kvs : List (String × JVal)) (k : String)
    (h : lookupKey kvs k = Option.none) :
    lookupKey (specs.foldl replaceNoneStep kvs) k = Option.none := by
  induction specs generalizing kvs with
  | nil => exact h
  | cons spec rest ih =>
      exact ih _ (lookupKey_replaceNoneStep_none spec kvs k h)

lemma lookupKey_setKey_other (kvs : List (String × JVal)) (k k' : String)
    (v : JVal) (h : k' ≠ k) :
    lookupKey (setKey kvs k' v) k = lookupKey kvs k := by
  induction kvs with
  | nil => rfl
  | cons kv rest ih =>
      obtain ⟨k0, v0⟩ := kv
      simp only [setKey]
      by_cases h0 : k0 = k'
      · subst h0
        simp [lookupKey, h]
      · simp only [h0, if_false, lookupKey]
        by_cases h1 : k0 = k
        · simp [h1]
        · simp [h1, ih]

lemma lookupKey_replaceNoneStep_other (spec : String × PyDefault)
    (kvs : List (String × JVal)) (k : String) (h : spec.1 ≠ k) :
    lookupKey (replaceNoneStep kvs spec) k = lookupKey kvs k := by
  unfold replaceNoneStep
  cases hv : lookupKey kvs spec.1 with
  | none => rfl
  | some v =>
      cases v <;>
        first
          | rfl
          | (cases spec.2 <;> exact lookupKey_setKey_other _ _ _ _ h)

lemma lookupKey_rn_fold_other (specs : List (String × PyDefault))
    (kvs : List (String × JVal)) (k : String)
    (h : ∀ spec ∈ specs, spec.1 ≠ k) :
    lookupKey (specs.foldl replaceNoneStep kvs) k = lookupKey kvs k := by
  induction specs generalizing kvs with
  | nil => rfl
  | cons spec rest ih =>
      rw [List.foldl_cons, ih _ (fun s hs => h s (List.mem_cons_of_mem _ hs)),
        lookupKey_replaceNoneStep_other _ _ _ (h spec (List.mem_cons_self _ _))]

lemma length_le_ceil_mul (n B : Nat) (hB : 1 ≤ B) :
    n ≤ ((n + B - 1) / B) * B := by
  have h1 := Nat.div_add_mod (n + B - 1) B
  have h2 : (n + B - 1) % B < B := Nat.mod_lt _ (by omega)
  rw [Nat.mul_comm]
  generalize hm : B * ((n + B - 1) / B) = m at h1
  omega

lemma flatten_chunks {α : Type} (B : Nat) :
    ∀ (k : Nat) (xs : List α), xs.length ≤ k * B →
      ((List.range k).map (fun i => (xs.drop (i * B)).take B)).flatten = xs := by
  intro k
  induction k with
  | zero =>
      intro xs h
      simp only [Nat.zero_mul, Nat.le_zero, List.length_eq_zero] at h
      simp [h]
  | succ k ih =>
      intro xs h
      rw [List.range_succ_eq_map, List.map_cons, List.flatten_cons, List.map_map]
      have hmap : (List.range k).map
            ((fun i => (xs.drop (i * B)).take B) ∘ Nat.succ)
          = (List.range k).map (fun i => ((xs.drop B).drop (i * B)).take B) := by
        apply List.map_congr_left
        intro i _
        simp only [Function.comp_apply]
        rw [List.drop_drop]
        congr 2
        rw [Nat.succ_mul, Nat.add_comm]
      rw [hmap]
      have hlen : (xs.drop B).length ≤ k * B := by
        rw [List.length_drop]
        have hs : (k + 1) * B = k * B + B := Nat.succ_mul k B
        omega
      rw [ih (xs.drop B) hlen]
      simp [List.take_append_drop]

lemma flatten_makeBatches {α : Type} (items : List α) (B : Nat) (hB : 1 ≤ B) :
    (makeBatches items B).flatten = items := by
  have h := flatten_chunks B ((items.length + B - 1) / B) items
    (length_le_ceil_mul items.length B hB)
  unfold makeBatches pyRange pySlice
  rw [List.map_map]
  exact h

lemma foldl_append_eq_flatten {α β : Type} (g : List α → List β) :
    ∀ (bs : List (List α)) (acc : List β),
      bs.foldl (fun r b => r ++ g b) acc = acc ++ (bs.map g).flatten := by
  intro bs
  induction bs with
  | nil => intro acc; simp
  | cons b rest ih => intro acc; simp [ih, List.append_assoc]

lemma abp_no_processor {α β : Type} (f : α → β) (items : List α) (B : Int)
    (hB : 1 ≤ B) :
    async_batch_processor f items B Option.none = .ok (items.map f) := by
  unfold async_batch_processor
  rw [if_neg (by omega), if_neg (by omega)]
  show Except.ok (List.foldl (fun r b => r ++ List.map f b) []
      (makeBatches items B.toNat)) = Except.ok (items.map f)
  have hfold := foldl_append_eq_flatten (List.map f)
    (makeBatches items B.toNat) []
  rw [hfold, List.nil_append, ← List.map_flatten,
    flatten_makeBatches items B.toNat (by omega)]

lemma abp_with_processor {α β : Type} (f : α → β) (g : List β → ProcOut β)
    (items : List α) (B : Int) (hB : 1 ≤ B) :
    async_batch_processor f items B (Option.some g)
      = .ok (((makeBatches items B.toNat).map
          (fun b => procOutSplice (g (b.map f)))).flatten) := by
  unfold async_batch_processor
  rw [if_neg (by omega), if_neg (by omega)]
  show Except.ok (List.foldl (fun r b => r ++ procOutSplice (g (List.map f b)))
      [] (makeBatches items B.toNat)) = _
  have hfold := foldl_append_eq_flatten
    (fun b => procOutSplice (g (List.map f b))) (makeBatches items B.toNat) []
  rw [hfold, List.nil_append]

/-! ### Claim theorems -/

set_option maxRecDepth 8000 in
/-- C3: without a `final_processor`, `async_batch_processor` returns, for
every item list, per-item function, and batch size B ≥ 1, exactly the list
of per-item results in input order (hence of the same length, positionally
corresponding, and independent of completion timing, which the embedding of
`asyncio.gather` already quantifies away); the partition is contiguous
(its flattening is the input), and the partition of 237 items at batch size
100 has group sizes [100, 100, 37] while 50 items at batch size 50 form a
single group of 50. -/
theorem batch_processor_preserves_order :
    (∀ (α β : Type) (f : α → β) (items : List α) (B : Int), 1 ≤ B →
      async_batch_processor f items B Option.none = .ok (items.map f)) ∧
    (∀ (α : Type) (items : List α) (B : Nat), 1 ≤ B →
      (makeBatches items B).flatten = items) ∧
    ((makeBatches (List.range 237) 100).map List.length = [100, 100, 37]) ∧
    ((makeBatches (List.range 50) 50).map List.length = [50]) := by
  refine ⟨fun α β f items B hB => abp_no_processor f items B hB,
    fun α items B hB => flatten_makeBatches items B hB, ?_, ?_⟩ <;> rfl

/-- C3 witness: the order-preservation conjunct applied at a concrete list
and batch size, its hypothesis discharged by evaluation. -/
theorem batch_processor_preserves_order_witness :
    (1 : Int) ≤ 2 ∧
      async_batch_processor (fun n : Nat => n * n) [1, 2, 3] 2 Option.none
        = .ok [1, 4, 9] :=
  ⟨by decide,
   batch_processor_preserves_order.1 Nat Nat (fun n => n * n) [1, 2, 3] 2
     (by decide)⟩

/-- C8: with a `final_processor`, each batch contributes exactly the splice
of the processed value — nothing for `None`, the list itself for a list,
a single entry otherwise; the closed conjuncts exhibit the three counts
(a processor returning `None` for a batch of 10 drops all 10, a summary
value appends exactly 1, a 3-element list extends by 3). -/
theorem final_processor_contract :
    (∀ (α β : Type) (f : α → β) (g : List β → ProcOut β) (items : List α)
        (B : Int), 1 ≤ B →
      async_batch_processor f items B (Option.some g)
        = .ok (((makeBatches items B.toNat).map
            (fun b => procOutSplice (g (b.map f)))).flatten)) ∧
    (∀ (β : Type), procOutSplice (ProcOut.none : ProcOut β) = []) ∧
    (∀ (β : Type) (xs : List β), procOutSplice (ProcOut.list xs) = xs) ∧
    (∀ (β : Type) (x : β), procOutSplice (ProcOut.single x) = [x]) ∧
    (async_batch_processor (fun n : Nat => n) (List.range 10) 10
        (Option.some (fun _ => ProcOut.none)) = .ok []) ∧
    (async_batch_processor (fun n : Nat => n) (List.range 10) 10
        (Option.some (fun rs => ProcOut.single rs.length)) = .ok [10]) ∧
    (async_batch_processor (fun n : Nat => n) (List.range 10) 10
        (Option.some (fun _ => ProcOut.list [7, 8, 9])) = .ok [7, 8, 9]) := by
  refine ⟨fun α β f g items B hB => abp_with_processor f g items B hB,
    fun β => rfl, fun β xs => rfl, fun β x => rfl, ?_, ?_, ?_⟩ <;> rfl

/-- C8 witness: the general conjunct applied at a concrete run whose two
batches [1,2,3] and [4] are summarized to their lengths. -/
theorem final_processor_contract_witness :
    (1 : Int) ≤ 3 ∧
      async_batch_processor (fun n : Nat => n + 1) [1, 2, 3, 4] 3
        (Option.some (fun rs => ProcOut.single rs.length)) = .ok [3, 1] :=
  ⟨by decide,
   final_processor_contract.1 Nat Nat (fun n => n + 1)
     (fun rs => ProcOut.single rs.length) [1, 2, 3, 4] 3 (by decide)⟩

/-- C10: `batch_size = 0` makes the `range` call raise `ValueError` (for
any non-empty input, and indeed any input); a negative `batch_size` makes
the range empty, so the whole input is silently dropped and the result is
`[]` no matter what the per-item function is; only `batch_size ≥ 1`
processes the items (yielding a non-empty result on non-empty input). -/
theorem batch_size_zero_raises_negative_drops :
    (∀ (α β : Type) (f : α → β) (items : List α), items ≠ [] →
      async_batch_processor f items 0 Option.none = .error rangeZeroStepMsg) ∧
    (∀ (α β : Type) (f : α → β) (items : List α) (B : Int), B < 0 →
      async_batch_processor f items B Option.none = .ok []) ∧
    (∀ (α β : Type) (f : α → β) (items : List α) (B : Int), 1 ≤ B →
      items ≠ [] →
      async_batch_processor f items B Option.none = .ok (items.map f) ∧
        items.map f ≠ []) := by
  refine ⟨?_, ?_, ?_⟩
  · intro α β f items hne
    rfl
  · intro α β f items B hB
    unfold async_batch_processor
    rw [if_neg (by omega), if_pos hB]
    rfl
  · intro α β f items B hB hne
    refine ⟨abp_no_processor f items B hB, ?_⟩
    simpa using hne

/-- C10 witness: the three conjuncts applied at a concrete one-element
list with batch sizes 0, -5 and 1. -/
theorem batch_size_zero_raises_negative_drops_witness :
    ([1] : List Nat) ≠ [] ∧
    async_batch_processor (fun n : Nat => n) [1] 0 Option.none
      = .error rangeZeroStepMsg ∧
    async_batch_processor (fun n : Nat => n) [1] (-5) Option.none = .ok [] ∧
    async_batch_processor (fun n : Nat => n) [1] 1 Option.none = .ok [1] :=
  ⟨by decide,
   batch_size_zero_raises_negative_drops.1 Nat Nat (fun n => n) [1] (by decide),
   batch_size_zero_raises_negative_drops.2.1 Nat Nat (fun n => n) [1] (-5)
     (by decide),
   (batch_size_zero_raises_negative_drops.2.2 Nat Nat (fun n => n) [1] 1
     (by decide) (by decide)).1⟩

/-- C4: for every dataset-code list L, each of the 8 derived compliance
flags of a `ComplianceData` record equals the membership test of its
monitored code in L, and the flags are unaffected by the only other stored
field (`request_status`), so they cannot diverge from the stored list. -/
theorem compliance_flags_are_membership :
    ∀ (rs rs' : Option String) (L : List String),
      (compliance_flag_adverse_media ⟨rs, L⟩ = true ↔ "RRE" ∈ L) ∧
      (compliance_flag_enforcements ⟨rs, L⟩ = true ↔ "REL" ∈ L) ∧
      (compliance_flag_state_owned ⟨rs, L⟩ = true ↔ "SOE" ∈ L) ∧
      (compliance_flag_persons_of_interest ⟨rs, L⟩ = true ↔ "POI" ∈ L) ∧
      (compliance_flag_current_sanctions ⟨rs, L⟩ = true ↔ "SAN-CURRENT" ∈ L) ∧
      (compliance_flag_former_sanctions ⟨rs, L⟩ = true ↔ "SAN-FORMER" ∈ L) ∧
      (compliance_flag_current_peps ⟨rs, L⟩ = true ↔ "PEP-CURRENT" ∈ L) ∧
      (compliance_flag_former_peps ⟨rs, L⟩ = true ↔ "PEP-FORMER" ∈ L) ∧
      (compliance_flag_adverse_media ⟨rs, L⟩ = compliance_flag_adverse_media ⟨rs', L⟩) ∧
      (compliance_flag_enforcements ⟨rs, L⟩ = compliance_flag_enforcements ⟨rs', L⟩) ∧
      (compliance_flag_state_owned ⟨rs, L⟩ = compliance_flag_state_owned ⟨rs', L⟩) ∧
      (compliance_flag_persons_of_interest ⟨rs, L⟩ = compliance_flag_persons_of_interest ⟨rs', L⟩) ∧
      (compliance_flag_current_sanctions ⟨rs, L⟩ = compliance_flag_current_sanctions ⟨rs', L⟩) ∧
      (compliance_flag_former_sanctions ⟨rs, L⟩ = compliance_flag_former_sanctions ⟨rs', L⟩) ∧
      (compliance_flag_current_peps ⟨rs, L⟩ = compliance_flag_current_peps ⟨rs', L⟩) ∧
      (compliance_flag_former_peps ⟨rs, L⟩ = compliance_flag_former_peps ⟨rs', L⟩) := by
  intro rs rs' L
  refine ⟨?_, ?_, ?_, ?_, ?_, ?_, ?_, ?_, rfl, rfl, rfl, rfl, rfl, rfl, rfl, rfl⟩ <;>
    simp [compliance_flag_adverse_media, compliance_flag_enforcements,
      compliance_flag_state_owned, compliance_flag_persons_of_interest,
      compliance_flag_current_sanctions, compliance_flag_former_sanctions,
      compliance_flag_current_peps, compliance_flag_former_peps,
      List.contains_iff_exists_mem_beq, beq_iff_eq]

/-- C9: the `id` field coercion turns the string "42" into the integer 42,
keeps a non-numeric string such as "abc" (and, in general, every string
Python `int()` rejects) as that string, keeps integers unchanged, and is a
total function (it never raises); the last two conjuncts show the coercion
acting through full record decoding. -/
theorem id_coercion_string_to_int :
    (convert_id_to_int (.jstr "42") = .jint 42) ∧
    (convert_id_to_int (.jstr "abc") = .jstr "abc") ∧
    (∀ s : String, pyIntOfString s = Option.none →
      convert_id_to_int (.jstr s) = .jstr s) ∧
    (∀ n : Int, convert_id_to_int (.jint n) = .jint n) ∧
    (∀ v : JVal, convert_id_to_int v = v ∨
      ∃ s n, v = .jstr s ∧ convert_id_to_int v = .jint n) ∧
    (validateCraftCompany (.jobj [("id", .jstr "42")]) =
      .ok { defaultCraftCompany with id := some (.int 42) }) ∧
    (validateCraftCompany (.jobj [("id", .jstr "abc")]) =
      .ok { defaultCraftCompany with id := some (.str "abc") }) := by
  refine ⟨rfl, rfl, ?_, fun n => rfl, ?_, rfl, rfl⟩
  · intro s hs
    simp [convert_id_to_int, hs]
  · intro v
    cases v with
    | jstr s =>
        cases hs : pyIntOfString s with
        | none => exact Or.inl (by simp [convert_id_to_int, hs])
        | some n => exact Or.inr ⟨s, n, rfl, by simp [convert_id_to_int, hs]⟩
    | jnull => exact Or.inl rfl
    | jbool b => exact Or.inl rfl
    | jint n => exact Or.inl rfl
    | jfloat q => exact Or.inl rfl
    | jarr xs => exact Or.inl rfl
    | jobj kvs => exact Or.inl rfl
    | jundef => exact Or.inl rfl

/-- C9 witness: instantiates the general kept-as-string conjunct at "abc",
discharging its parse-failure hypothesis by evaluation. -/
theorem id_coercion_string_to_int_witness :
    pyIntOfString "abc" = Option.none ∧
      convert_id_to_int (.jstr "abc") = .jstr "abc" :=
  ⟨rfl, id_coercion_string_to_int.2.2.1 "abc" rfl⟩

/-- C7 counterexample: the request body built by `fetch_company` binds the
identifier under the literal key "id" even when the configuration's
`company_id_field` selects "duns" — the binding key is a fixed constant,
not the configured field name. -/
theorem fetch_payload_ignores_config_counterexample :
    ((buildFetchPayload "query company" 7).vars.map Prod.fst = ["id"]) ∧
    (ApiConfig.company_id_field
        { api_key := "k", headers := [], query_string := "query company",
          company_id_field := .DUNS }).value = "duns" ∧
    ("id" : String) ≠ "duns" := by
  exact ⟨rfl, rfl, by decide⟩

/-- C7 amended: for every identifier and query, the request body is
`{query: <query string>, variables: {"id": identifier}}` — the
variable-binding key is the fixed constant "id"; the configurable
`company_id_field` of `ApiConfig` is never consulted by `fetch_company`. -/
theorem fetch_payload_fixed_id_key :
    ∀ (QUERY : String) (company_id : Int),
      buildFetchPayload QUERY company_id
        = { query := QUERY, vars := [("id", company_id)] } :=
  fun _ _ => rfl

/-- C5: `fetch_company` always returns a value — a company on success, and
otherwise an error dict carrying exactly the identifier it was called with;
transport failures get the "Request error: " tag, non-2xx statuses the
"HTTP <code>: " tag, a `KeyError` the "Missing key in response: " tag, and
every other exception (JSON decode failures, validation failures, attribute
errors, ...) the "Unexpected error: " tag; the four tags are pairwise
distinct, so the kinds are distinguishable from the message alone.  (The
model covers every Python `Exception`; `BaseException`s such as
cancellation are outside the embedded, single-call semantics.) -/
theorem fetch_company_never_raises :
    (∀ (company_id : Int) (post : PostResult),
      (∃ c, fetch_company company_id post = .company c) ∨
      (∃ e, fetch_company company_id post = .errorDict company_id e)) ∧
    (∀ (company_id : Int) (msg : String),
      fetch_company company_id (.requestError msg)
        = .errorDict company_id ("Request error: " ++ msg)) ∧
    (∀ (company_id : Int) (r : HttpResponse), is2xx r.status = false →
      fetch_company company_id (.resp r)
        = .errorDict company_id
            ("HTTP " ++ toString r.status ++ ": " ++ r.statusErrMsg)) ∧
    (∀ (company_id : Int) (r : HttpResponse), is2xx r.status = true →
      r.jsonBody = Option.none →
      fetch_company company_id (.resp r)
        = .errorDict company_id
            ("Unexpected error: " ++ "JSONDecodeError" ++ ": "
              ++ r.decodeErrMsg)) ∧
    (∀ (company_id : Int) (msg : String),
      handleFetchError company_id (.keyError msg)
        = .errorDict company_id ("Missing key in response: " ++ msg)) ∧
    (∀ (company_id : Int) (typeName msg : String),
      handleFetchError company_id (.otherError typeName msg)
        = .errorDict company_id
            ("Unexpected error: " ++ typeName ++ ": " ++ msg)) ∧
    (("HTTP " : String) ≠ "Request error: " ∧
     ("HTTP " : String) ≠ "Missing key in response: " ∧
     ("HTTP " : String) ≠ "Unexpected error: " ∧
     ("Request error: " : String) ≠ "Missing key in response: " ∧
     ("Request error: " : String) ≠ "Unexpected error: " ∧
     ("Missing key in response: " : String) ≠ "Unexpected error: ") := by
  refine ⟨?_, fun company_id msg => rfl, ?_, ?_,
    fun company_id msg => rfl, fun company_id typeName msg => rfl, by decide⟩
  · intro company_id post
    unfold fetch_company
    cases hb : fetchBody post with
    | returned c => exact Or.inl ⟨c, rfl⟩
    | raised e =>
        cases e with
        | httpStatusError status msg => exact Or.inr ⟨_, rfl⟩
        | requestError msg => exact Or.inr ⟨_, rfl⟩
        | keyError msg => exact Or.inr ⟨_, rfl⟩
        | otherError typeName msg => exact Or.inr ⟨_, rfl⟩
  · intro company_id r h
    simp [fetch_company, fetchBody, h, handleFetchError]
  · intro company_id r h2 hbody
    simp [fetch_company, fetchBody, h2, hbody, handleFetchError]

/-- C5 witness: the non-2xx and decode-failure conjuncts applied at a
concrete 404 response and a concrete 200 response whose body is not JSON. -/
theorem fetch_company_never_raises_witness :
    is2xx 404 = false ∧
    fetch_company 7
      (.resp { status := 404, jsonBody := Option.none, decodeErrMsg := "d", statusErrMsg := "m" })
      = .errorDict 7 ("HTTP " ++ "404" ++ ": " ++ "m") ∧
    is2xx 200 = true ∧
    fetch_company 8
      (.resp { status := 200, jsonBody := Option.none, decodeErrMsg := "Expecting value", statusErrMsg := "m" })
      = .errorDict 8
          ("Unexpected error: " ++ "JSONDecodeError" ++ ": "
            ++ "Expecting value") :=
  ⟨by decide,
   fetch_company_never_raises.2.2.1 7
     { status := 404, jsonBody := Option.none, decodeErrMsg := "d", statusErrMsg := "m" }
     (by decide),
   by decide,
   fetch_company_never_raises.2.2.2.1 8
     { status := 200, jsonBody := Option.none, decodeErrMsg := "Expecting value", statusErrMsg := "m" }
     (by decide) rfl⟩

/-- C1 counterexample: decoded records *can* contain null fields.  Decoding
the empty company object succeeds, yet the resulting record's `id` and
`sustainability_rating` are `None` (their declared defaults are themselves
`None`); and an explicitly null `shortDescription` — an optional field with
the documented default "None found" — decodes to `None`, not to the
default. -/
theorem defaulting_totality_counterexample :
    (validateCraftCompany (.jobj []) = .ok defaultCraftCompany) ∧
    (defaultCraftCompany.id = Option.none) ∧
    (defaultCraftCompany.sustainability_rating = Option.none) ∧
    (validateCraftCompany (.jobj [("shortDescription", .jnull)]) =
      .ok { defaultCraftCompany with short_description := Option.none }) :=
  ⟨rfl, rfl, rfl, rfl⟩

/-- C1 amended: for every payload that decodes to a `CraftCompany`, every
field whose alias key is absent takes its *declared* default — which is the
documented sentinel for most fields but is itself `None` for `id`, `duns`
and `sustainability_rating`; an explicit null on a field whose alias
differs from its field name is propagated as null (shown for `creditScore`
and `shortDescription`), because `replace_none_with_defaults` looks the
*field name* up in the alias-keyed payload. -/
theorem defaulting_totality_amended (kvs : List (String × JVal))
    (c : CraftCompany) (h : validateCraftCompany (.jobj kvs) = .ok c) :
    (lookupKey kvs "id" = Option.none → c.id = Option.none) ∧
    (lookupKey kvs "duns" = Option.none → c.duns = Option.none) ∧
    (lookupKey kvs "displayName" = Option.none →
      c.display_name = "None Found") ∧
    (lookupKey kvs "countryOfRegistration" = Option.none →
      c.country_of_registration = "None Found") ∧
    (lookupKey kvs "homepage" = Option.none → c.homepage = some "None Found") ∧
    (lookupKey kvs "shortDescription" = Option.none →
      c.short_description = some "None found") ∧
    (lookupKey kvs "companyType" = Option.none →
      c.company_type = "None Found") ∧
    (lookupKey kvs "creditScore" = Option.none →
      c.credit_score = some defaultCreditScore) ∧
    (lookupKey kvs "complianceData" = Option.none →
      c.compliance_data = some defaultComplianceData) ∧
    (lookupKey kvs "securityRatings" = Option.none →
      c.security_ratings = some [defaultSecurityRating]) ∧
    (lookupKey kvs "sustainabilityRating" = Option.none →
      c.sustainability_rating = Option.none) ∧
    (lookupKey kvs "ratios" = Option.none → c.financial_ratios = some []) ∧
    (lookupKey kvs "creditScore" = some .jnull →
      c.credit_score = Option.none) ∧
    (lookupKey kvs "shortDescription" = some .jnull →
      c.short_description = Option.none) := by
  have hk : ∀ k, lookupKey kvs k = Option.none →
      lookupKey (craftCompanySpecs.foldl replaceNoneStep kvs) k = Option.none :=
    fun k => lookupKey_rn_fold_none _ _ _
  have hkcs : lookupKey (craftCompanySpecs.foldl replaceNoneStep kvs)
      "creditScore" = lookupKey kvs "creditScore" :=
    lookupKey_rn_fold_other _ _ _ (by decide)
  have hksd : lookupKey (craftCompanySpecs.foldl replaceNoneStep kvs)
      "shortDescription" = lookupKey kvs "shortDescription" :=
    lookupKey_rn_fold_other _ _ _ (by decide)
  unfold validateCraftCompany replace_none_with_defaults at h
  set kvs' := craftCompanySpecs.foldl replaceNoneStep kvs with hkvs
  simp only at h
  cases h1 : fieldOr kvs' "id" (.ok Option.none)
      (fun v => vIdUnion (convert_id_to_int v)) with
  | error e => rw [h1] at h; simp at h
  | ok v1 =>
  rw [h1] at h
  simp only [except_bind_ok] at h
  cases h2 : fieldOr kvs' "duns" (.ok Option.none) vIdUnion with
  | error e => rw [h2] at h; simp at h
  | ok v2 =>
  rw [h2] at h
  simp only [except_bind_ok] at h
  cases h3 : fieldOr kvs' "displayName" (.ok "None Found") vStr with
  | error e => rw [h3] at h; simp at h
  | ok v3 =>
  rw [h3] at h
  simp only [except_bind_ok] at h
  cases h4 : fieldOr kvs' "countryOfRegistration" (.ok "None Found") vStr with
  | error e => rw [h4] at h; simp at h
  | ok v4 =>
  rw [h4] at h
  simp only [except_bind_ok] at h
  cases h5 : fieldOr kvs' "homepage" (.ok (some "None Found")) (vOpt vStr) with
  | error e => rw [h5] at h; simp at h
  | ok v5 =>
  rw [h5] at h
  simp only [except_bind_ok] at h
  cases h6 : fieldOr kvs' "shortDescription" (.ok (some "None found"))
      (vOpt vStr) with
  | error e => rw [h6] at h; simp at h
  | ok v6 =>
  rw [h6] at h
  simp only [except_bind_ok] at h
  cases h7 : fieldOr kvs' "companyType" (.ok "None Found") vStr with
  | error e => rw [h7] at h; simp at h
  | ok v7 =>
  rw [h7] at h
  simp only [except_bind_ok] at h
  cases h8 : fieldOr kvs' "creditScore" (.ok (some defaultCreditScore))
      (vOpt validateCreditScore) with
  | error e => rw [h8] at h; simp at h
  | ok v8 =>
  rw [h8] at h
  simp only [except_bind_ok] at h
  cases h9 : fieldOr kvs' "complianceData" (.ok (some defaultComplianceData))
      (vOpt validateComplianceData) with
  | error e => rw [h9] at h; simp at h
  | ok v9 =>
  rw [h9] at h
  simp only [except_bind_ok] at h
  cases h10 : fieldOr kvs' "securityRatings"
      (.ok (some [defaultSecurityRating]))
      (vOpt (vListOf validateSecurityRating)) with
  | error e => rw [h10] at h; simp at h
  | ok v10 =>
  rw [h10] at h
  simp only [except_bind_ok] at h
  cases h11 : fieldOr kvs' "sustainabilityRating" (.ok Option.none)
      (vOpt validateSustainabilityRating) with
  | error e => rw [h11] at h; simp at h
  | ok v11 =>
  rw [h11] at h
  simp only [except_bind_ok] at h
  cases h12 : fieldOr kvs' "ratios" (.ok (some []))
      (fun v => vOpt (vListOf validateRatios) (handle_ratios_array v)) with
  | error e => rw [h12] at h; simp at h
  | ok v12 =>
  rw [h12] at h
  simp only [except_bind_ok] at h
  have hc : c =
      { id := v1, duns := v2, display_name := v3,
        country_of_registration := v4, homepage := v5, short_description := v6,
        company_type := v7, credit_score := v8, compliance_data := v9,
        security_ratings := v10, sustainability_rating := v11,
        financial_ratios := v12 } := by
    cases h; rfl
  subst hc
  refine ⟨?_, ?_, ?_, ?_, ?_, ?_, ?_, ?_, ?_, ?_, ?_, ?_, ?_, ?_⟩
  · intro habs
    have hn := hk _ habs
    unfold fieldOr at h1
    rw [hn] at h1
    cases h1; rfl
  · intro habs
    have hn := hk _ habs
    unfold fieldOr at h2
    rw [hn] at h2
    cases h2; rfl
  · intro habs
    have hn := hk _ habs
    unfold fieldOr at h3
    rw [hn] at h3
    cases h3; rfl
  · intro habs
    have hn := hk _ habs
    unfold fieldOr at h4
    rw [hn] at h4
    cases h4; rfl
  · intro habs
    have hn := hk _ habs
    unfold fieldOr at h5
    rw [hn] at h5
    cases h5; rfl
  · intro habs
    have hn := hk _ habs
    unfold fieldOr at h6
    rw [hn] at h6
    cases h6; rfl
  · intro habs
    have hn := hk _ habs
    unfold fieldOr at h7
    rw [hn] at h7
    cases h7; rfl
  · intro habs
    have hn := hk _ habs
    unfold fieldOr at h8
    rw [hn] at h8
    cases h8; rfl
  · intro habs
    have hn := hk _ habs
    unfold fieldOr at h9
    rw [hn] at h9
    cases h9; rfl
  · intro habs
    have hn := hk _ habs
    unfold fieldOr at h10
    rw [hn] at h10
    cases h10; rfl
  · intro habs
    have hn := hk _ habs
    unfold fieldOr at h11
    rw [hn] at h11
    cases h11; rfl
  · intro habs
    have hn := hk _ habs
    unfold fieldOr at h12
    rw [hn] at h12
    cases h12; rfl
  · intro hnull
    have hn : lookupKey kvs' "creditScore" = some .jnull := by
      rw [hkcs]; exact hnull
    unfold fieldOr at h8
    rw [hn] at h8
    cases h8; rfl
  · intro hnull
    have hn : lookupKey kvs' "shortDescription" = some .jnull := by
      rw [hksd]; exact hnull
    unfold fieldOr at h6
    rw [hn] at h6
    cases h6; rfl

/-- C1 witness: the amended theorem applied to the empty payload, its
decode hypothesis and the absence hypotheses discharged by evaluation. -/
theorem defaulting_totality_amended_witness :
    validateCraftCompany (.jobj []) = .ok defaultCraftCompany ∧
      defaultCraftCompany.credit_score = some defaultCreditScore :=
  ⟨rfl, (defaulting_totality_amended [] defaultCraftCompany rfl).2.2.2.2.2.2.2.1 rfl⟩

/-- C2: code bug, evaluated at the failing input.  A payload with an
explicitly null nested object (`{"creditScore": null}`) decodes to a record
whose `credit_score` is `None`, not a fully-defaulted `CreditScore` — the
alias-keyed null escapes the name-keyed `replace_none_with_defaults` loop.
The same happens one level further down (`{"currentCreditRating": null}`),
while an *absent* nested object does get the fully-defaulted value. -/
theorem null_nested_object_decodes_to_null :
    (validateCraftCompany (.jobj [("creditScore", .jnull)]) =
      .ok { defaultCraftCompany with credit_score := Option.none }) ∧
    (validateCreditScore (.jobj [("currentCreditRating", .jnull)]) =
      .ok { current_credit_rating := Option.none }) ∧
    (validateCraftCompany (.jobj []) =
      .ok defaultCraftCompany) ∧
    (defaultCraftCompany.credit_score = some defaultCreditScore) :=
  ⟨rfl, rfl, rfl, rfl⟩

/-- C6: code bug, evaluated at the failing input.  Decoding fails when the
wrapping "company" key is absent, and an empty (maximally sparse) company
object decodes successfully; but a payload whose company object carries an
explicit null for the defaulted field `displayName` also fails to decode
(null is not a valid `str` and the name-keyed replace-none loop misses the
aliased key), so decode errors are *not* confined to a missing "company". -/
theorem decode_error_not_only_missing_company :
    (validateCompanyData (.jobj [("company", .jobj [("displayName", .jnull)])]) =
      .error "string_type") ∧
    (validateCompanyData (.jobj [("company", .jobj [])]) =
      .ok { company := some defaultCraftCompany }) ∧
    (validateCompanyData (.jobj []) = .error "missing") ∧
    (validateCompanyData (.jobj [("company", .jnull)]) =
      .ok { company := Option.none }) :=
  ⟨rfl, rfl, rfl, rfl⟩

end Craft
